import Mathlib

/-!
# Verification of the Signaloid 2D-airfoil Bernoulli lift demo

Shallow embedding of the four C programs
(`v1` no uncertainties, `v2` temperature/humidity/elevation uncertain,
`v3` angle-of-attack uncertain and `v3` pressure-coefficients uncertain)
over real arithmetic, together with theorems settling the frozen claims
about the natural-language specification.

C `double` arithmetic is modelled by exact real arithmetic; the hardcoded
decimal literals are carried as rational constants.  The Signaloid
uncertainty library (`uncertain.h`) is not part of the repository, so its
operations are modelled from the specification where a claim needs them;
each such definition is marked `Modelled from the spec:`.
-/

namespace LiftAirfoil

/- ===================================================================
   Hardcoded pressure-coefficient tables.
   `cpOverTable` is `Cp2` of v1 (lines 59-72) and
   `empiricalPressureCoefficientOverAirfoil` of v2 (lines 80-93): the
   source text is missing the comma between `-1.4999` and `-1.4769`,
   so C constant folding merges the two tokens into the single array
   element `-1.4999 - 1.4769`; the array has 83 elements.
   `cpUnderTable` is `Cp1` of v1 (lines 74-87) and
   `empiricalPressureCoefficientUnderAirfoil` of v2 (lines 95-108),
   84 elements.
   =================================================================== -/

def cpOverTable : List ℚ :=
  [-2.3444, -2.4402, -2.5411, -2.577, -2.7322, -2.7316, -2.5977,
  -2.575, -2.5415, -2.3405, -2.3121, -2.2061, -2.1597, -2.0826,
  -1.9988, -1.9037, -1.7997, -1.7692, -1.63, -1.6235, (-1.4999 - 1.4769),
  -1.4098, -1.3809, -1.3528, -1.3367, -1.3181, -1.2695, -1.239,
  -1.1633, -1.1599, -1.0807, -1.0715, -1.0127, -0.9936, -0.9336,
  -0.8987, -0.8544, -0.8222, -0.7642, -0.7355, -0.6851, -0.645,
  -0.6061, -0.5636, -0.538, -0.4927, -0.4825, -0.4468, -0.4431,
  -0.4454, -0.444, -0.4329, -0.4205, -0.4094, -0.3889, -0.3636,
  -0.349, -0.3179, -0.2992, -0.2832, -0.2727, -0.2596, -0.2451,
  -0.2248, -0.2195, -0.2012, -0.1998, -0.1808, -0.1781, -0.1831,
  -0.1885, -0.1837, -0.1769, -0.1889, -0.1865, -0.1799, -0.1841,
  -0.1785, -0.1838, -0.1742, -0.1779, -0.1823, -0.1789]

def cpUnderTable : List ℚ :=
  [0.8111, 0.9226, 1.0007, 0.9934, 0.8905, 0.8737, 0.7471,
  0.7336, 0.714, 0.6252, 0.6152, 0.5857, 0.5611, 0.4833,
  0.429, 0.403, 0.3861, 0.3781, 0.3431, 0.3423, 0.3439,
  0.3448, 0.3393, 0.3353, 0.3354, 0.3368, 0.3345, 0.3272,
  0.3228, 0.3067, 0.3057, 0.2782, 0.275, 0.2539, 0.2432,
  0.2017, 0.1893, 0.2187, 0.2461, 0.2578, 0.2585, 0.2675,
  0.2711, 0.2632, 0.2392, 0.2206, 0.1912, 0.1853, 0.1643,
  0.1539, 0.1427, 0.1439, 0.1585, 0.1679, 0.1675, 0.1579,
  0.1564, 0.159, 0.164, 0.1606, 0.1438, 0.1286, 0.1278,
  0.1299, 0.1214, 0.1199, 0.1316, 0.1322, 0.1217, 0.1134,
  0.1001, 0.102, 0.1118, 0.1173, 0.1216, 0.1122, 0.1017,
  0.1134, 0.1031, 0.1022, 0.1164, 0.1036, 0.1032, 0.1174]

/- ===================================================================
   Velocity accumulation loop, v1 lines 89-96 / v2 lines 110-118.
   The C loop body is `*vx += V * sqrt(fabs(1 - Cpx[i]))`; the two
   accumulators are independent, so the loop is embedded once per
   accumulator.  `n` is the loop bound `sizeof(array)/sizeof(double)`
   and `init` is the caller-supplied initial content of the
   accumulator (`main` passes an uninitialized local; see C10).
   =================================================================== -/

/-- One loop term `V * sqrt(fabs(1 - c))` (v1 line 92). -/
noncomputable def velTerm (V : ℝ) (c : ℝ) : ℝ := V * Real.sqrt |1 - c|

/-- The `+=` loop over positions `0 ≤ i < n` of the table `cs`. -/
noncomputable def velocityLoop (V : ℝ) (cs : List ℚ) (n : ℕ) (init : ℝ) : ℝ :=
  (List.range n).foldl (fun acc i => acc + velTerm V ((cs.getD i 0 : ℚ) : ℝ)) init

/-- v1 lines 92 and 95: `*v1` accumulates the under-airfoil terms over the
loop bound `sizeof(Cp2)/sizeof(double)` (the OVER table length, 83) and is
then divided by `sizeof(Cp1)/sizeof(double)` (the UNDER table length, 84). -/
noncomputable def v1_v1 (init : ℝ) : ℝ :=
  velocityLoop 30 cpUnderTable cpOverTable.length init / cpUnderTable.length

/-- v1 lines 93 and 96: `*v2` accumulates the over-airfoil terms over the
same bound (83) and is divided by `sizeof(Cp2)/sizeof(double)` (83). -/
noncomputable def v1_v2 (init : ℝ) : ℝ :=
  velocityLoop 30 cpOverTable cpOverTable.length init / cpOverTable.length

/-- v2 lines 114 and 117: `*v1` accumulates the OVER-airfoil terms with
loop bound 83 (the over table length) and is divided by 83. -/
noncomputable def v2_v1 (init : ℝ) : ℝ :=
  velocityLoop 30 cpOverTable cpOverTable.length init / cpOverTable.length

/-- v2 lines 115 and 118: `*v2` accumulates the UNDER-airfoil terms with
loop bound 83 and is divided by the under table length 84. -/
noncomputable def v2_v2 (init : ℝ) : ℝ :=
  velocityLoop 30 cpUnderTable cpOverTable.length init / cpUnderTable.length

/- ===================================================================
   Air-density pipeline, v1 lines 51-57 and 101 (identical in v2 at
   lines 68-71 and 125 and in both v3 files).
   =================================================================== -/

/-- `Pair = exp((-9.81 * 0.0289644 * h)/(8.31432 * (T+273.15))) * 101325.0`
(v1 line 51). -/
noncomputable def Pair (T h : ℝ) : ℝ :=
  Real.exp ((-9.81 * 0.0289644 * h) / (8.31432 * (T + 273.15))) * 101325.0

/-- `Psat = 6.1078*pow(10.0, 7.5*T/(T+237.3))` (v1 line 53). -/
noncomputable def Psat (T : ℝ) : ℝ := 6.1078 * (10.0 : ℝ) ^ (7.5 * T / (T + 237.3))

/-- `Pv = Psat*Rh` (v1 line 55). -/
noncomputable def Pv (T Rh : ℝ) : ℝ := Psat T * Rh

/-- `Pd = Pair - Pv` (v1 line 57). -/
noncomputable def Pd (T h Rh : ℝ) : ℝ := Pair T h - Pv T Rh

/-- `*r = (Pd/(287.058*(T+273.15)))+(Pv/(461.495*(T+273.15)))` (v1 line 101). -/
noncomputable def airDensity (T h Rh : ℝ) : ℝ :=
  (Pd T h Rh / (287.058 * (T + 273.15))) + (Pv T Rh / (461.495 * (T + 273.15)))

/-- The density formula exactly as claim C4 states it (following the
specification's words, for comparison with the source's `airDensity`);
the gravitational constant, which the claim leaves unnamed, is the
source's `9.81`. -/
noncomputable def claimDensityFormula (T h Rh : ℝ) : ℝ :=
  let g : ℝ := 9.81
  let M : ℝ := 0.0289644
  let R : ℝ := 8.31432
  let P_air : ℝ := 101325 * Real.exp (-g * M * h / (R * (T + 273.15)))
  let P_sat : ℝ := 6.1078 * (10 : ℝ) ^ (7.5 * T / (T + 237.3))
  let P_vapor : ℝ := P_sat * Rh
  let P_dry : ℝ := P_air - P_vapor
  P_dry / (287.058 * (T + 273.15)) + P_vapor / (461.495 * (T + 273.15))

/-- v1 `main` lines 107-112: `liftForce = r*A*(pow(v1,2)-pow(v2,2))/2.0`
with `r` and the velocities from `loadInputs` (`T`=15, `h`=0, `Rh`=0,
`A`=0.23) and `init1`, `init2` the initial contents of the uninitialized
locals `v1`, `v2` that `loadInputs` accumulates into. -/
noncomputable def v1LiftForce (init1 init2 : ℝ) : ℝ :=
  airDensity 15 0 0 * 0.23 * ((v1_v1 init1) ^ 2 - (v1_v2 init2) ^ 2) / 2

/-- Claim C6's single-pair lift formula: `lift = ρ*A*(v_over² - v_under²)/2`
with `v_x = V*sqrt(|1-Cp_x|)` (the per-position expression of v1 line 92). -/
noncomputable def liftFormula (ρ A V cpOver cpUnder : ℝ) : ℝ :=
  ρ * A * ((velTerm V cpOver) ^ 2 - (velTerm V cpUnder) ^ 2) / 2

/- ===================================================================
   v3: sample-table grid consumption (identical in
   lift-2D-airfoil-Bernoulli-angle-of-attack-uncertain.c lines 46-51,
   112-152 and ...-pressure-coefficients-uncertain.c lines 115-166).
   The loaded table is a function `data : ℕ → ℕ → ℝ` of (row, column).
   =================================================================== -/

def sampleCount : ℕ := 3

def row : ℕ := 140

def col : ℕ := 7

def totalLength : ℕ := (row - 1) * 2

/-- `empricalPressureOver10AOA[i-1] = data[i][1]` for `1 ≤ i < 140`
(angle-of-attack file line 120), reindexed at `i` for `i < 139`. -/
def empricalPressureOver10AOA (data : ℕ → ℕ → ℝ) (i : ℕ) : ℝ := data (i + 1) 1

/-- `empricalPressureOver5AOA[i-1] = data[i][2]` (line 121). -/
def empricalPressureOver5AOA (data : ℕ → ℕ → ℝ) (i : ℕ) : ℝ := data (i + 1) 2

/-- `empricalPressureOver0AOA[i-1] = data[i][3]` (line 122). -/
def empricalPressureOver0AOA (data : ℕ → ℕ → ℝ) (i : ℕ) : ℝ := data (i + 1) 3

/-- `empricalPressureUnder0AOA[i-1] = data[i][4]` (line 123). -/
def empricalPressureUnder0AOA (data : ℕ → ℕ → ℝ) (i : ℕ) : ℝ := data (i + 1) 4

/-- `empricalPressureUnder5AOA[i-1] = data[i][5]` (line 124). -/
def empricalPressureUnder5AOA (data : ℕ → ℕ → ℝ) (i : ℕ) : ℝ := data (i + 1) 5

/-- `empricalPressureUnder10AOA[i-1] = data[i][6]` (line 125). -/
def empricalPressureUnder10AOA (data : ℕ → ℕ → ℝ) (i : ℕ) : ℝ := data (i + 1) 6

/-- Claim C7 reads the layout as over/under curves "for 10°, 5°, 0° in
that fixed order", i.e. the under-surface 10° curve in column 4. -/
def claimedUnder10AOA (data : ℕ → ℕ → ℝ) (i : ℕ) : ℝ := data (i + 1) 4

/-- Under claim C7's reading the under-surface 0° curve is column 6. -/
def claimedUnder0AOA (data : ℕ → ℕ → ℝ) (i : ℕ) : ℝ := data (i + 1) 6

/-- Curve concatenation, angle-of-attack file lines 132-144: positions
`0 ≤ i < row-1` hold the over-surface curve and positions
`row-1 ≤ i < 2*(row-1)` the under-surface curve (10° angle of attack). -/
def empricalPressure10AOA (data : ℕ → ℕ → ℝ) (i : ℕ) : ℝ :=
  if i < row - 1 then empricalPressureOver10AOA data i
  else empricalPressureUnder10AOA data (i - (row - 1))

/-- As `empricalPressure10AOA`, for the 5° curves. -/
def empricalPressure5AOA (data : ℕ → ℕ → ℝ) (i : ℕ) : ℝ :=
  if i < row - 1 then empricalPressureOver5AOA data i
  else empricalPressureUnder5AOA data (i - (row - 1))

/-- As `empricalPressure10AOA`, for the 0° curves. -/
def empricalPressure0AOA (data : ℕ → ℕ → ℝ) (i : ℕ) : ℝ :=
  if i < row - 1 then empricalPressureOver0AOA data i
  else empricalPressureUnder0AOA data (i - (row - 1))

/-- The `sampleCount × totalLength` matrix of the angle-of-attack file
(lines 146-152): row `j` is the full curve for the `j`-th scenario,
filled element-wise by the loop. -/
def coefficientsUncertainAOA (data : ℕ → ℕ → ℝ) : ℕ → ℕ → ℝ := fun j i =>
  if j = 0 then empricalPressure10AOA data i
  else if j = 1 then empricalPressure5AOA data i
  else if j = 2 then empricalPressure0AOA data i
  else 0

/-- The matrix of the pressure-coefficients file (lines 162-166), which is
declared with the initializer
`{ *empricalPressure10AOA, *empricalPressure5AOA, *empricalPressure0AOA }`:
each initializer expression dereferences the decayed array pointer and is
just the FIRST element of the curve, so C brace-elision places the three
scalars row-major at `[0][0]`, `[0][1]`, `[0][2]` and the remaining
entries of the aggregate are zero-initialized. -/
def coefficientsUncertainPC (data : ℕ → ℕ → ℝ) : ℕ → ℕ → ℝ := fun j i =>
  if j = 0 ∧ i = 0 then empricalPressure10AOA data 0
  else if j = 0 ∧ i = 1 then empricalPressure5AOA data 0
  else if j = 0 ∧ i = 2 then empricalPressure0AOA data 0
  else 0

/-- An empirical distribution, represented by its ordered sample list. -/
structure EmpiricalDist where
  samples : List ℝ

/-- Modelled from the spec:
`libUncertainDoubleDistFromMultidimensionalSamples` is provided by the
Signaloid platform header `uncertain.h`, which is not part of this
repository.  Per the specification's empirical-builder contract, for each
position `i` it builds an `Empirical` distribution over the `k` values
observed at that position across the `k` alternative curves (rows of the
sample matrix `m`), with no smoothing or interpolation between them. -/
def libUncertainDistFromMultidimensionalSamples
    (m : ℕ → ℕ → ℝ) (k : ℕ) : ℕ → EmpiricalDist :=
  fun i => ⟨(List.range k).map fun j => m j i⟩

/-- v3 velocity loop, first accumulator (angle-of-attack file lines
163-165): bound `totalLength/2`, terms over the builder-output
coefficients `c i` (abstracted as a function, since their platform values
are distributional). -/
noncomputable def v3VelocityLoop1 (c : ℕ → ℝ) (init : ℝ) : ℝ :=
  (List.range (totalLength / 2)).foldl (fun acc i => acc + velTerm 30 (c i)) init

/-- v3 velocity loop, second accumulator (line 166): same bound, terms
over `c (row - 1 + i)`. -/
noncomputable def v3VelocityLoop2 (c : ℕ → ℝ) (init : ℝ) : ℝ :=
  (List.range (totalLength / 2)).foldl (fun acc i => acc + velTerm 30 (c (row - 1 + i))) init

/-- v3 line 169: `*v1 /= sizeof(empiricalPressureCoefficients)/sizeof(double)`,
i.e. division by `totalLength` = 278 although only 139 terms were summed. -/
noncomputable def v3_v1 (c : ℕ → ℝ) (init : ℝ) : ℝ := v3VelocityLoop1 c init / totalLength

/-- v3 line 170: the second accumulator is likewise divided by 278. -/
noncomputable def v3_v2 (c : ℕ → ℝ) (init : ℝ) : ℝ := v3VelocityLoop2 c init / totalLength

/-- A concrete sample grid for counterexamples: every entry of column `c`
holds the value `c`. -/
def columnGrid : ℕ → ℕ → ℝ := fun _ c => (c : ℝ)

/- ===================================================================
   The core UncertainValue type, modelled from the spec.
   =================================================================== -/

/-- Modelled from the spec: the `UncertainValue` core type of `uncertain.h`
(not in the repository) under the specification's Monte Carlo semantics —
a random variable presented as a map from a seed space (here `ℝ`), every
arithmetic operation acting pointwise on draws.  A degenerate
(zero-uncertainty) value is a constant map. -/
def UVm : Type := ℝ → ℝ

/-- The degenerate (zero-width) UncertainValue concentrated on `x`. -/
def uvDegenerate (x : ℝ) : UVm := fun _ => x

/-- Modelled from the spec: `Gaussian(mean, stddev)`, a standard seed
pushed through the affine map `ω ↦ mean + stddev * ω`; for a nonzero
standard deviation its support is all of `ℝ`. -/
def uvGaussDist (mean stddev : ℝ) : UVm := fun ω => mean + stddev * ω

/-- Modelled from the spec: `Uniform(low, high)`, realized by clamping
the seed into `[0,1]` and mapping it affinely onto `[low, high]`. -/
def uvUniformDist (low high : ℝ) : UVm := fun ω => low + (high - low) * max 0 (min 1 ω)

def uvAdd (a b : UVm) : UVm := fun ω => a ω + b ω

def uvSub (a b : UVm) : UVm := fun ω => a ω - b ω

def uvMul (a b : UVm) : UVm := fun ω => a ω * b ω

/-- Pointwise division: what the platform's plain `/` computes on draws. -/
noncomputable def uvDivP (a b : UVm) : UVm := fun ω => a ω / b ω

def uvPow (a : UVm) (n : ℕ) : UVm := fun ω => (a ω) ^ n

def uvAbs (a : UVm) : UVm := fun ω => |a ω|

noncomputable def uvSqrt (a : UVm) : UVm := fun ω => Real.sqrt (a ω)

noncomputable def uvExp (a : UVm) : UVm := fun ω => Real.exp (a ω)

/-- `pow(10.0, x)` applied to an uncertain exponent. -/
noncomputable def uvTenRpow (a : UVm) : UVm := fun ω => (10.0 : ℝ) ^ (a ω)

/-- The support of an UncertainValue: every value some draw can take. -/
def uvSupport (a : UVm) : Set ℝ := Set.range a

inductive UVError where
  | divisionByZero

open Classical in
/-- Modelled from the spec: division must report a `DivisionByZero`-class
error when the denominator's distribution support includes zero, rather
than silently producing infinity. -/
noncomputable def uvDivChecked (a b : UVm) : Except UVError UVm :=
  if (0 : ℝ) ∈ uvSupport b then Except.error UVError.divisionByZero
  else Except.ok (uvDivP a b)

/- ===================================================================
   The v2 program over UncertainValues (v2 lines 53-142).
   =================================================================== -/

/-- v2 line 57: `Rh = libUncertainDoubleUniformDist(0.0, 1.0)`. -/
def v2Rh : UVm := uvUniformDist 0.0 1.0

/-- v2 line 58: `h = libUncertainDoubleUniformDist(0.0, 11019.2)`. -/
def v2h : UVm := uvUniformDist 0.0 11019.2

/-- v2 line 59: `T = libUncertainDoubleGaussDist(0.0, 50.0)`. -/
def v2T : UVm := uvGaussDist 0.0 50.0

/-- v2 line 68, over UncertainValues. -/
noncomputable def v2PairUV (T h : UVm) : UVm :=
  uvMul (uvExp (uvDivP
      (uvMul (uvMul (uvDegenerate (-9.81)) (uvDegenerate 0.0289644)) h)
      (uvMul (uvDegenerate 8.31432) (uvAdd T (uvDegenerate 273.15)))))
    (uvDegenerate 101325.0)

/-- v2 line 69, over UncertainValues. -/
noncomputable def v2PsatUV (T : UVm) : UVm :=
  uvMul (uvDegenerate 6.1078)
    (uvTenRpow (uvDivP (uvMul (uvDegenerate 7.5) T) (uvAdd T (uvDegenerate 237.3))))

/-- v2 line 70, over UncertainValues. -/
noncomputable def v2PvUV (T Rh : UVm) : UVm := uvMul (v2PsatUV T) Rh

/-- v2 line 71, over UncertainValues. -/
noncomputable def v2PdUV (T h Rh : UVm) : UVm := uvSub (v2PairUV T h) (v2PvUV T Rh)

/-- v2 velocity loop (lines 112-116) over UncertainValues; the freestream
velocity and the table entries are degenerate constants. -/
noncomputable def v2VelocityLoopUV (cs : List ℚ) (n : ℕ) (init : UVm) : UVm :=
  (List.range n).foldl
    (fun acc i => uvAdd acc (uvMul (uvDegenerate 30.0)
      (uvSqrt (uvAbs (uvSub (uvDegenerate 1) (uvDegenerate ((cs.getD i 0 : ℚ) : ℝ)))))))
    init

/-- v2 lines 114 and 117 over UncertainValues. -/
noncomputable def v2_v1UV (init : UVm) : UVm :=
  uvDivP (v2VelocityLoopUV cpOverTable cpOverTable.length init)
    (uvDegenerate (cpOverTable.length : ℝ))

/-- v2 lines 115 and 118 over UncertainValues. -/
noncomputable def v2_v2UV (init : UVm) : UVm :=
  uvDivP (v2VelocityLoopUV cpUnderTable cpOverTable.length init)
    (uvDegenerate (cpUnderTable.length : ℝ))

/-- v2 line 125 over UncertainValues, with the platform's plain pointwise
division (the C source performs no error check). -/
noncomputable def v2DensityUV (T h Rh : UVm) : UVm :=
  uvAdd
    (uvDivP (v2PdUV T h Rh) (uvMul (uvDegenerate 287.058) (uvAdd T (uvDegenerate 273.15))))
    (uvDivP (v2PvUV T Rh) (uvMul (uvDegenerate 461.495) (uvAdd T (uvDegenerate 273.15))))

/-- v2 line 125 with the specification's checked division (claim C5): each
of the two divisions reports `DivisionByZero` when its denominator's
support includes zero. -/
noncomputable def v2DensityChecked (T h Rh : UVm) : Except UVError UVm := do
  let d1 ← uvDivChecked (v2PdUV T h Rh)
    (uvMul (uvDegenerate 287.058) (uvAdd T (uvDegenerate 273.15)))
  let d2 ← uvDivChecked (v2PvUV T Rh)
    (uvMul (uvDegenerate 461.495) (uvAdd T (uvDegenerate 273.15)))
  pure (uvAdd d1 d2)

/-- v2 `main` lines 130-139 over UncertainValues:
`liftForce = r*A*(pow(v1,2)-pow(v2,2))/2.0` with `A = 0.23`. -/
noncomputable def v2LiftForceUV (T h Rh : UVm) (init1 init2 : UVm) : UVm :=
  uvDivP
    (uvMul (uvMul (v2DensityUV T h Rh) (uvDegenerate 0.23))
      (uvSub (uvPow (v2_v1UV init1) 2) (uvPow (v2_v2UV init2) 2)))
    (uvDegenerate 2.0)

/- ===================================================================
   CLI guard of the v3 angle-of-attack `main` (lines 184-187).
   =================================================================== -/

/-- The guard `if (argc < 1)` of v3 `main` line 184: the usage-message
branch is taken exactly when `argc < 1`. -/
def usageBranchTaken (argc : ℕ) : Bool := decide (argc < 1)

/- ===================================================================
   Helper lemmas: table facts, loop unrolling, numeric bounds.
   =================================================================== -/

lemma cpOverTable_le : ∀ c ∈ cpOverTable, c ≤ -1742 / 10000 := by
  simp only [cpOverTable, List.forall_mem_cons, List.forall_mem_nil]
  norm_num

lemma cpUnderTable_bounds : ∀ c ∈ cpUnderTable, 1001 / 10000 ≤ c ∧ c ≤ 10007 / 10000 := by
  simp only [cpUnderTable, List.forall_mem_cons, List.forall_mem_nil]
  norm_num

lemma cpOverTable_length : cpOverTable.length = 83 := by simp [cpOverTable]

lemma cpUnderTable_length : cpUnderTable.length = 84 := by simp [cpUnderTable]

/-- Unrolling any `+=` fold over `List.range n` into a finite sum. -/
lemma foldl_add_eq_sum (g : ℕ → ℝ) (n : ℕ) (init : ℝ) :
    (List.range n).foldl (fun acc i => acc + g i) init
      = init + ∑ i ∈ Finset.range n, g i := by
  induction n with
  | zero => simp
  | succ n ih =>
      rw [List.range_succ, List.foldl_append, ih, Finset.sum_range_succ]
      simp [add_assoc]

lemma velocityLoop_eq_sum (V : ℝ) (cs : List ℚ) (n : ℕ) (init : ℝ) :
    velocityLoop V cs n init
      = init + ∑ i ∈ Finset.range n, velTerm V ((cs.getD i 0 : ℚ) : ℝ) :=
  foldl_add_eq_sum _ n init

lemma v1_v1_eq (init : ℝ) :
    v1_v1 init
      = (init + ∑ i ∈ Finset.range 83, velTerm 30 ((cpUnderTable.getD i 0 : ℚ) : ℝ)) / 84 := by
  rw [v1_v1, cpOverTable_length, velocityLoop_eq_sum, cpUnderTable_length]
  norm_cast

lemma v1_v2_eq (init : ℝ) :
    v1_v2 init
      = (init + ∑ i ∈ Finset.range 83, velTerm 30 ((cpOverTable.getD i 0 : ℚ) : ℝ)) / 83 := by
  rw [v1_v2, cpOverTable_length, velocityLoop_eq_sum]
  norm_cast

lemma v3_v1_eq (c : ℕ → ℝ) (init : ℝ) :
    v3_v1 c init = (init + ∑ i ∈ Finset.range 139, velTerm 30 (c i)) / 278 := by
  rw [v3_v1, v3VelocityLoop1, show totalLength / 2 = 139 by norm_num [totalLength, row],
    show totalLength = 278 by norm_num [totalLength, row], foldl_add_eq_sum]
  norm_cast

lemma v3_v2_eq (c : ℕ → ℝ) (init : ℝ) :
    v3_v2 c init = (init + ∑ i ∈ Finset.range 139, velTerm 30 (c (139 + i))) / 278 := by
  rw [v3_v2, v3VelocityLoop2, show totalLength / 2 = 139 by norm_num [totalLength, row],
    show totalLength = 278 by norm_num [totalLength, row]]
  simp only [show row - 1 = 139 from by norm_num [row]]
  rw [foldl_add_eq_sum]
  norm_cast

lemma velTerm_nonneg (V : ℝ) (hV : 0 ≤ V) (c : ℝ) : 0 ≤ velTerm V c :=
  mul_nonneg hV (Real.sqrt_nonneg _)

lemma velTerm_pos {c : ℝ} (hc : c ≠ 1) : 0 < velTerm 30 c := by
  unfold velTerm
  have h : 0 < Real.sqrt |1 - c| := by
    rw [Real.sqrt_pos, abs_pos]
    intro hzero
    exact hc (by linarith)
  positivity

/-- Each over-airfoil loop term is at least `30 * sqrt 1.1742 ≥ 32.5`. -/
lemma velTerm_over_lower {i : ℕ} (hi : i < 83) :
    (32.5 : ℝ) ≤ velTerm 30 ((cpOverTable.getD i 0 : ℚ) : ℝ) := by
  have hi' : i < cpOverTable.length := by rw [cpOverTable_length]; exact hi
  have hmem : cpOverTable.getD i 0 ∈ cpOverTable := by
    rw [List.getD_eq_getElem cpOverTable 0 hi']
    exact List.getElem_mem hi'
  have hle : (cpOverTable.getD i 0 : ℚ) ≤ -1742 / 10000 := cpOverTable_le _ hmem
  have hleR : ((cpOverTable.getD i 0 : ℚ) : ℝ) ≤ -0.1742 := by
    rw [show (-0.1742 : ℝ) = ((-1742 / 10000 : ℚ) : ℝ) by norm_num]
    exact_mod_cast hle
  unfold velTerm
  have habs : (1.1742 : ℝ) ≤ |1 - ((cpOverTable.getD i 0 : ℚ) : ℝ)| := by
    rw [abs_of_nonneg (by linarith)]; linarith
  have hsqrt : (1.0836 : ℝ) ≤ Real.sqrt |1 - ((cpOverTable.getD i 0 : ℚ) : ℝ)| := by
    apply Real.le_sqrt_of_sq_le; nlinarith
  linarith

/-- Each under-airfoil loop term is at most `30 * sqrt 0.8999 ≤ 28.47`. -/
lemma velTerm_under_upper {i : ℕ} (hi : i < 84) :
    velTerm 30 ((cpUnderTable.getD i 0 : ℚ) : ℝ) ≤ (28.47 : ℝ) := by
  have hi' : i < cpUnderTable.length := by rw [cpUnderTable_length]; exact hi
  have hmem : cpUnderTable.getD i 0 ∈ cpUnderTable := by
    rw [List.getD_eq_getElem cpUnderTable 0 hi']
    exact List.getElem_mem hi'
  have hb := cpUnderTable_bounds _ hmem
  have hloR : (0.1001 : ℝ) ≤ ((cpUnderTable.getD i 0 : ℚ) : ℝ) := by
    rw [show (0.1001 : ℝ) = ((1001 / 10000 : ℚ) : ℝ) by norm_num]
    exact_mod_cast hb.1
  have hhiR : ((cpUnderTable.getD i 0 : ℚ) : ℝ) ≤ 1.0007 := by
    rw [show (1.0007 : ℝ) = ((10007 / 10000 : ℚ) : ℝ) by norm_num]
    exact_mod_cast hb.2
  unfold velTerm
  have habs : |1 - ((cpUnderTable.getD i 0 : ℚ) : ℝ)| ≤ (0.8999 : ℝ) := by
    rw [abs_le]; constructor <;> linarith
  have hsqrt : Real.sqrt |1 - ((cpUnderTable.getD i 0 : ℚ) : ℝ)| ≤ 0.949 := by
    have h1 := Real.sqrt_le_sqrt habs
    have h2 : Real.sqrt (0.8999 : ℝ) ≤ 0.949 := by
      rw [show (0.949 : ℝ) = Real.sqrt (0.949 ^ 2) by rw [Real.sqrt_sq]; norm_num]
      apply Real.sqrt_le_sqrt; norm_num
    linarith
  linarith

/-- The over-airfoil sum of 83 terms is at least `83 * 32.5`. -/
lemma sum_over_lower :
    (83 : ℝ) * 32.5
      ≤ ∑ i ∈ Finset.range 83, velTerm 30 ((cpOverTable.getD i 0 : ℚ) : ℝ) := by
  have h := Finset.card_nsmul_le_sum (Finset.range 83)
    (fun i => velTerm 30 ((cpOverTable.getD i 0 : ℚ) : ℝ)) (32.5 : ℝ)
    (fun i hi => velTerm_over_lower (Finset.mem_range.mp hi))
  simpa [nsmul_eq_mul] using h

/-- The summed 83 under-airfoil terms total at most `83 * 28.47`. -/
lemma sum_under_upper :
    ∑ i ∈ Finset.range 83, velTerm 30 ((cpUnderTable.getD i 0 : ℚ) : ℝ)
      ≤ (83 : ℝ) * 28.47 := by
  have h := Finset.sum_le_card_nsmul (Finset.range 83)
    (fun i => velTerm 30 ((cpUnderTable.getD i 0 : ℚ) : ℝ)) (28.47 : ℝ)
    (fun i hi => velTerm_under_upper (lt_trans (Finset.mem_range.mp hi) (by norm_num)))
  simpa [nsmul_eq_mul] using h

lemma cpUnderTable_getD_zero : (cpUnderTable.getD 0 0 : ℚ) = 0.8111 := by
  simp [cpUnderTable]

lemma cpUnderTable_getD_83 : (cpUnderTable.getD 83 0 : ℚ) = 0.1174 := by
  simp [cpUnderTable, List.getD_cons_succ, List.getD_cons_zero]

/-- The under-airfoil sum is positive (its first term already is). -/
lemma sum_under_pos :
    0 < ∑ i ∈ Finset.range 83, velTerm 30 ((cpUnderTable.getD i 0 : ℚ) : ℝ) := by
  have h0 : (0 : ℕ) ∈ Finset.range 83 := by norm_num
  have hfirst : (0 : ℝ) < velTerm 30 ((cpUnderTable.getD 0 0 : ℚ) : ℝ) := by
    rw [cpUnderTable_getD_zero]
    exact velTerm_pos (by norm_num)
  calc (0:ℝ) < velTerm 30 ((cpUnderTable.getD 0 0 : ℚ) : ℝ) := hfirst
    _ ≤ _ := Finset.single_le_sum
        (f := fun i => velTerm 30 ((cpUnderTable.getD i 0 : ℚ) : ℝ))
        (fun i _ => velTerm_nonneg 30 (by norm_num) _) h0

lemma sum_under_nonneg :
    0 ≤ ∑ i ∈ Finset.range 83, velTerm 30 ((cpUnderTable.getD i 0 : ℚ) : ℝ) :=
  le_of_lt sum_under_pos

/-- Splitting off the 84th under-airfoil term, the one the loop never
sums. -/
lemma sum_under_84_split :
    ∑ i ∈ Finset.range 84, velTerm 30 ((cpUnderTable.getD i 0 : ℚ) : ℝ)
      = ∑ i ∈ Finset.range 83, velTerm 30 ((cpUnderTable.getD i 0 : ℚ) : ℝ)
        + velTerm 30 ((cpUnderTable.getD 83 0 : ℚ) : ℝ) :=
  Finset.sum_range_succ _ 83

/-- The 84th under-airfoil term is strictly positive. -/
lemma velTerm_under_84_pos : 0 < velTerm 30 ((cpUnderTable.getD 83 0 : ℚ) : ℝ) := by
  apply velTerm_pos
  rw [show ((cpUnderTable.getD 83 0 : ℚ) : ℝ) = ((0.1174 : ℚ) : ℝ) from by
    rw [cpUnderTable_getD_83]]
  norm_num

/-- At v1's inputs (`T`=15, `h`=0, `Rh`=0) the density collapses to the
dry-air term with `Pair` = 101325. -/
lemma airDensity_v1_inputs :
    airDensity 15 0 0 = 101325.0 / (287.058 * (15 + 273.15)) := by
  unfold airDensity Pd Pv Pair Psat
  norm_num [Real.exp_zero]

lemma airDensity_v1_pos : 0 < airDensity 15 0 0 := by
  rw [airDensity_v1_inputs]; norm_num

lemma v1_v1_le : v1_v1 0 ≤ 28.2 := by
  rw [v1_v1_eq]
  have := sum_under_upper
  linarith

lemma v1_v1_nonneg : 0 ≤ v1_v1 0 := by
  rw [v1_v1_eq]
  have := sum_under_nonneg
  linarith

lemma v1_v2_ge : 32.5 ≤ v1_v2 0 := by
  rw [v1_v2_eq]
  have := sum_over_lower
  linarith

/-- The v1 lift force (zero-initialized accumulators) is strictly
negative: the over-surface average velocity exceeds the under-surface
one, and v1 subtracts the squares in the order under² − over². -/
lemma v1LiftForce_neg : v1LiftForce 0 0 < 0 := by
  unfold v1LiftForce
  have ha := v1_v1_le
  have ha0 := v1_v1_nonneg
  have hb := v1_v2_ge
  have hr := airDensity_v1_pos
  have hsq : (v1_v1 0) ^ 2 < (v1_v2 0) ^ 2 := by nlinarith
  have hneg : (v1_v1 0) ^ 2 - (v1_v2 0) ^ 2 < 0 := by linarith
  have h023 : (0:ℝ) < 0.23 := by norm_num
  nlinarith [mul_pos hr h023]

/- ===================================================================
   Pointwise evaluation of the v2 UncertainValue pipeline at
   degenerate inputs.
   =================================================================== -/

lemma v2VelocityLoopUV_apply (cs : List ℚ) (n : ℕ) (init : UVm) (ω : ℝ) :
    v2VelocityLoopUV cs n init ω = velocityLoop 30 cs n (init ω) := by
  induction n with
  | zero => rfl
  | succ n ih =>
      have hL : v2VelocityLoopUV cs (n + 1) init ω
          = v2VelocityLoopUV cs n init ω
            + 30.0 * Real.sqrt |1 - ((cs.getD n 0 : ℚ) : ℝ)| := by
        simp [v2VelocityLoopUV, List.range_succ, uvAdd, uvMul, uvSqrt, uvAbs, uvSub,
          uvDegenerate]
      have hR : velocityLoop 30 cs (n + 1) (init ω)
          = velocityLoop 30 cs n (init ω) + velTerm 30 ((cs.getD n 0 : ℚ) : ℝ) := by
        simp [velocityLoop, List.range_succ]
      rw [hL, hR, ih, velTerm]
      norm_num

lemma v2_v1UV_degenerate (x : ℝ) :
    v2_v1UV (uvDegenerate x) = uvDegenerate (v2_v1 x) := by
  funext ω
  simp only [v2_v1UV, uvDivP, v2VelocityLoopUV_apply, uvDegenerate, v2_v1]

lemma v2_v2UV_degenerate (x : ℝ) :
    v2_v2UV (uvDegenerate x) = uvDegenerate (v2_v2 x) := by
  funext ω
  simp only [v2_v2UV, uvDivP, v2VelocityLoopUV_apply, uvDegenerate, v2_v2]

lemma v2DensityUV_degenerate :
    v2DensityUV (uvDegenerate 15) (uvDegenerate 0) (uvDegenerate 0)
      = uvDegenerate (airDensity 15 0 0) := rfl

lemma v2LiftForceUV_degenerate (x y : ℝ) :
    v2LiftForceUV (uvDegenerate 15) (uvDegenerate 0) (uvDegenerate 0)
        (uvDegenerate x) (uvDegenerate y)
      = uvDegenerate (airDensity 15 0 0 * 0.23 * ((v2_v1 x) ^ 2 - (v2_v2 y) ^ 2) / 2) := by
  funext ω
  have h1 := congrFun (v2_v1UV_degenerate x) ω
  have h2 := congrFun (v2_v2UV_degenerate y) ω
  have hd := congrFun v2DensityUV_degenerate ω
  simp only [v2LiftForceUV, uvDivP, uvMul, uvSub, uvPow] at *
  rw [h1, h2, hd]
  simp only [uvDegenerate]
  norm_num

/-- The degenerate v2 lift is the negation of v1's: v2 assigns the
over-surface average to its first accumulator where v1 assigns the
under-surface average, and the lift subtracts the squares first-minus-
second in both programs. -/
lemma v2_scalar_lift_eq_neg_v1 :
    airDensity 15 0 0 * 0.23 * ((v2_v1 0) ^ 2 - (v2_v2 0) ^ 2) / 2 = -(v1LiftForce 0 0) := by
  have h1 : v2_v1 0 = v1_v2 0 := rfl
  have h2 : v2_v2 0 = v1_v1 0 := rfl
  rw [h1, h2, v1LiftForce]
  ring

/- ===================================================================
   Claim theorems.
   =================================================================== -/

/-- C1 (counterexample): in v1, the computed under-surface velocity does
NOT equal the average of the summed terms — 83 terms are summed (the loop
bound is the over-table length) but the accumulator is divided by 84; nor
does it equal the 84-position average, since the 84th term is never
summed. -/
theorem v1_under_velocity_cx :
    v1_v1 0 ≠ (∑ i ∈ Finset.range 83, velTerm 30 ((cpUnderTable.getD i 0 : ℚ) : ℝ)) / 83
  ∧ v1_v1 0 ≠ (∑ i ∈ Finset.range 84, velTerm 30 ((cpUnderTable.getD i 0 : ℚ) : ℝ)) / 84 := by
  constructor
  · rw [v1_v1_eq]
    intro h
    have hS := sum_under_pos
    linarith
  · rw [v1_v1_eq, sum_under_84_split]
    intro h
    have ht := velTerm_under_84_pos
    linarith

/-- C1 (amended): v_over is the true average of the 83 summed over-surface
terms, but v_under is the 83-term sum divided by 84, and in v3 both
velocities are 139-term sums divided by 278 (half the per-position
average). -/
theorem velocity_averages_amended :
    (v1_v2 0 = (∑ i ∈ Finset.range 83, velTerm 30 ((cpOverTable.getD i 0 : ℚ) : ℝ)) / 83)
  ∧ (v1_v1 0 = (∑ i ∈ Finset.range 83, velTerm 30 ((cpUnderTable.getD i 0 : ℚ) : ℝ)) / 84)
  ∧ (∀ c : ℕ → ℝ,
      v3_v1 c 0 = (∑ i ∈ Finset.range 139, velTerm 30 (c i)) / 278
    ∧ v3_v2 c 0 = (∑ i ∈ Finset.range 139, velTerm 30 (c (139 + i))) / 278) := by
  refine ⟨?_, ?_, fun c => ⟨?_, ?_⟩⟩
  · rw [v1_v2_eq]; ring
  · rw [v1_v1_eq]; ring
  · rw [v3_v1_eq]; ring
  · rw [v3_v2_eq]; ring

/-- C2 (code bug): the angle-of-attack variant's sample matrix does feed
the builder the three per-position curve values (first two conjuncts,
matching the claim), but the pressure-coefficients variant's matrix is
built from the initializer `{*p10, *p5, *p0}`, so at position 5 of the
column-valued grid the builder's sample set is `[0,0,0]` although the
three observed values there are 1, 2, 3. -/
theorem empirical_builder_positions :
    (∀ (data : ℕ → ℕ → ℝ) (i : ℕ),
        libUncertainDistFromMultidimensionalSamples (coefficientsUncertainAOA data) sampleCount i
          = ⟨[empricalPressure10AOA data i, empricalPressure5AOA data i,
              empricalPressure0AOA data i]⟩)
  ∧ (∀ (data : ℕ → ℕ → ℝ) (i : ℕ), i < 139 →
        empricalPressure10AOA data i = data (i + 1) 1
      ∧ empricalPressure10AOA data (139 + i) = data (i + 1) 6)
  ∧ libUncertainDistFromMultidimensionalSamples (coefficientsUncertainPC columnGrid) sampleCount 5
      = ⟨[0, 0, 0]⟩
  ∧ empricalPressure10AOA columnGrid 5 = 1
  ∧ empricalPressure5AOA columnGrid 5 = 2
  ∧ empricalPressure0AOA columnGrid 5 = 3 := by
  refine ⟨fun data i => ?_, fun data i hi => ⟨?_, ?_⟩, ?_, ?_, ?_, ?_⟩
  · simp [libUncertainDistFromMultidimensionalSamples, sampleCount, coefficientsUncertainAOA,
      List.range_succ]
  · have : i < row - 1 := by simpa [row] using hi
    simp [empricalPressure10AOA, empricalPressureOver10AOA, this]
  · have hnot : ¬ (139 + i < row - 1) := by simp [row]
    have hsub : 139 + i - (row - 1) = i := by simp [row]
    simp [empricalPressure10AOA, empricalPressureUnder10AOA, hnot, hsub]
  · simp [libUncertainDistFromMultidimensionalSamples, sampleCount, coefficientsUncertainPC,
      List.range_succ]
  · norm_num [empricalPressure10AOA, empricalPressureOver10AOA, row, columnGrid]
  · norm_num [empricalPressure5AOA, empricalPressureOver5AOA, row, columnGrid]
  · norm_num [empricalPressure0AOA, empricalPressureOver0AOA, row, columnGrid]

/-- Witness for `empirical_builder_positions` at the concrete grid
`columnGrid` and position 0. -/
theorem empirical_builder_positions_witness :
    empricalPressure10AOA columnGrid 0 = columnGrid (0 + 1) 1
  ∧ empricalPressure10AOA columnGrid (139 + 0) = columnGrid (0 + 1) 6 :=
  empirical_builder_positions.2.1 columnGrid 0 (by norm_num)

/-- C3 (counterexample): at the degenerate inputs `T`=15, `h`=0, `Rh`=0,
`V`=30, `A`=0.23 and the shared tables, v2's lift (a degenerate
UncertainValue, evaluated here at seed 0) differs from v1's scalar lift:
it is its negation, and v1's lift is nonzero. -/
theorem v2_degenerate_lift_cx :
    v2LiftForceUV (uvDegenerate 15) (uvDegenerate 0) (uvDegenerate 0)
        (uvDegenerate 0) (uvDegenerate 0) 0
      ≠ v1LiftForce 0 0 := by
  rw [congrFun (v2LiftForceUV_degenerate 0 0) 0]
  show airDensity 15 0 0 * 0.23 * ((v2_v1 0) ^ 2 - (v2_v2 0) ^ 2) / 2 ≠ v1LiftForce 0 0
  rw [v2_scalar_lift_eq_neg_v1]
  have := v1LiftForce_neg
  intro h
  linarith

/-- C3 (amended): every arithmetic operation on degenerate UncertainValue
operands yields the degenerate of the scalar result, and consequently the
v2 formula at the degenerate inputs computes exactly the NEGATION of v1's
lift force (same magnitude, opposite sign): v2 feeds the over-surface
average to the accumulator that v1 feeds the under-surface average. -/
theorem degenerate_closure_and_negated_lift :
    (∀ x y : ℝ, uvAdd (uvDegenerate x) (uvDegenerate y) = uvDegenerate (x + y))
  ∧ (∀ x y : ℝ, uvSub (uvDegenerate x) (uvDegenerate y) = uvDegenerate (x - y))
  ∧ (∀ x y : ℝ, uvMul (uvDegenerate x) (uvDegenerate y) = uvDegenerate (x * y))
  ∧ (∀ x y : ℝ, uvDivP (uvDegenerate x) (uvDegenerate y) = uvDegenerate (x / y))
  ∧ (∀ (x : ℝ) (n : ℕ), uvPow (uvDegenerate x) n = uvDegenerate (x ^ n))
  ∧ (∀ x : ℝ, uvAbs (uvDegenerate x) = uvDegenerate |x|)
  ∧ (∀ x : ℝ, uvSqrt (uvDegenerate x) = uvDegenerate (Real.sqrt x))
  ∧ v2LiftForceUV (uvDegenerate 15) (uvDegenerate 0) (uvDegenerate 0)
      (uvDegenerate 0) (uvDegenerate 0) = uvDegenerate (-(v1LiftForce 0 0)) := by
  refine ⟨fun x y => rfl, fun x y => rfl, fun x y => rfl, fun x y => rfl,
    fun x n => rfl, fun x => rfl, fun x => rfl, ?_⟩
  rw [v2LiftForceUV_degenerate, v2_scalar_lift_eq_neg_v1]

/-- C4: the computed air density is exactly the specification's formula
(with the source's constants, including `g` = 9.81). -/
theorem airDensity_matches_claim_formula (T h Rh : ℝ) :
    airDensity T h Rh = claimDensityFormula T h Rh := by
  simp only [airDensity, claimDensityFormula, Pd, Pv, Pair, Psat]
  rw [show (10.0 : ℝ) = (10 : ℝ) from by norm_num,
    show (101325.0 : ℝ) = (101325 : ℝ) from by norm_num]
  ring

/-- C5: division by an UncertainValue whose support includes zero reports
`DivisionByZero`, and v2's density computation — whose denominators are
affine images of the Gaussian temperature `T ~ Gauss(0, 50)`, whose
support straddles zero — reports that error. -/
theorem division_by_zero_support_reported :
    (∀ a b : UVm, (0 : ℝ) ∈ uvSupport b →
        uvDivChecked a b = Except.error UVError.divisionByZero)
  ∧ v2DensityChecked v2T v2h v2Rh = Except.error UVError.divisionByZero := by
  constructor
  · intro a b h
    simp only [uvDivChecked]
    exact if_pos h
  · have hmem : (0 : ℝ) ∈ uvSupport
        (uvMul (uvDegenerate 287.058) (uvAdd v2T (uvDegenerate 273.15))) := by
      apply Set.mem_range.mpr
      refine ⟨-273.15 / 50, ?_⟩
      simp only [uvMul, uvAdd, uvDegenerate, v2T, uvGaussDist]
      norm_num
    have herr : uvDivChecked (v2PdUV v2T v2h v2Rh)
        (uvMul (uvDegenerate 287.058) (uvAdd v2T (uvDegenerate 273.15)))
        = Except.error UVError.divisionByZero := by
      simp only [uvDivChecked]
      exact if_pos hmem
    simp only [v2DensityChecked, herr]
    rfl

/-- Witness for `division_by_zero_support_reported`: the specification's
own example, division by `Uniform(-1, 1)`. -/
theorem division_by_zero_support_reported_witness :
    uvDivChecked (uvDegenerate 1) (uvUniformDist (-1) 1)
      = Except.error UVError.divisionByZero :=
  division_by_zero_support_reported.1 _ _ (Set.mem_range.mpr ⟨1/2, by
    show (-1 : ℝ) + (1 - -1) * max 0 (min 1 (1/2)) = 0
    norm_num⟩)

/-- C6 (counterexample): with density, area and V all 1, moving the pair
from (0, 1/2) to (2, 0) increases `|Cp_over − Cp_under|` from 1/2 to 2 yet
strictly DECREASES the lift magnitude from 1/4 to 0 (the coefficient 2
lies beyond 1, where `|1 − Cp|` folds back). -/
theorem lift_monotonicity_cx :
    |(0 : ℝ) - 1/2| ≤ |(2 : ℝ) - 0|
  ∧ |liftFormula 1 1 1 2 0| < |liftFormula 1 1 1 0 (1/2)| := by
  constructor
  · rw [show (0:ℝ) - 1/2 = -(1/2) from by norm_num, abs_neg,
      show (2:ℝ) - 0 = 2 from by norm_num,
      abs_of_nonneg (by norm_num : (0:ℝ) ≤ 1/2),
      abs_of_nonneg (by norm_num : (0:ℝ) ≤ 2)]
    norm_num
  · have h1 : liftFormula 1 1 1 0 (1/2) = 1/4 := by
      unfold liftFormula velTerm
      rw [show |(1:ℝ) - 0| = 1 by norm_num, show |(1:ℝ) - 1/2| = 1/2 by norm_num,
        mul_pow, mul_pow, Real.sq_sqrt (by norm_num : (0:ℝ) ≤ 1),
        Real.sq_sqrt (by norm_num : (0:ℝ) ≤ 1/2)]
      norm_num
    have h2 : liftFormula 1 1 1 2 0 = 0 := by
      unfold liftFormula velTerm
      rw [show |(1:ℝ) - 2| = 1 by norm_num, show |(1:ℝ) - 0| = 1 by norm_num]
      norm_num
    rw [h1, h2]
    norm_num

/-- Both squared velocities reduce to `V² (1 − Cp)` when the coefficient
is at most 1, collapsing the lift to `ρ A V²/2 (Cp_under − Cp_over)`. -/
lemma liftFormula_of_le_one (ρ A V co cu : ℝ) (hco : co ≤ 1) (hcu : cu ≤ 1) :
    liftFormula ρ A V co cu = (ρ * A * V ^ 2 / 2) * (cu - co) := by
  unfold liftFormula velTerm
  rw [mul_pow, mul_pow, Real.sq_sqrt (abs_nonneg _), Real.sq_sqrt (abs_nonneg _),
    abs_of_nonneg (by linarith : (0:ℝ) ≤ 1 - co),
    abs_of_nonneg (by linarith : (0:ℝ) ≤ 1 - cu)]
  ring

/-- C6 (amended): the monotonicity holds on the regime the data actually
inhabits on the under surface and that the formula's derivation assumes —
pressure coefficients at most 1, where `|1 − Cp| = 1 − Cp`. -/
theorem lift_magnitude_monotone (co cu co' cu' ρ A V : ℝ)
    (hco : co ≤ 1) (hcu : cu ≤ 1) (hco' : co' ≤ 1) (hcu' : cu' ≤ 1)
    (hspread : |co - cu| ≤ |co' - cu'|) :
    |liftFormula ρ A V co cu| ≤ |liftFormula ρ A V co' cu'| := by
  rw [liftFormula_of_le_one _ _ _ _ _ hco hcu, liftFormula_of_le_one _ _ _ _ _ hco' hcu',
    abs_mul, abs_mul]
  apply mul_le_mul_of_nonneg_left _ (abs_nonneg _)
  rwa [abs_sub_comm cu co, abs_sub_comm cu' co']

/-- Witness for `lift_magnitude_monotone` at (0,1) against (1,−1). -/
theorem lift_magnitude_monotone_witness :
    |liftFormula 1 1 1 0 1| ≤ |liftFormula 1 1 1 1 (-1)| :=
  lift_magnitude_monotone 0 1 1 (-1) 1 1 1 (by norm_num) (by norm_num)
    (by norm_num) (by norm_num) (by norm_num)

/-- C7 (counterexample): on the grid whose column `c` holds the constant
value `c`, the source's under-surface 10° curve reads column 6, not the
column 4 that the claim's fixed 10°-5°-0° ordering would put it in. -/
theorem column_layout_cx :
    empricalPressureUnder10AOA columnGrid 0 = 6
  ∧ claimedUnder10AOA columnGrid 0 = 4
  ∧ empricalPressureUnder10AOA columnGrid 0 ≠ claimedUnder10AOA columnGrid 0 := by
  refine ⟨?_, ?_, ?_⟩ <;>
    norm_num [empricalPressureUnder10AOA, claimedUnder10AOA, columnGrid]

/-- C7 (amended): columns 1,2,3 hold the over-surface curves in 10°, 5°,
0° order, but columns 4,5,6 hold the under-surface curves in the REVERSED
0°, 5°, 10° order. -/
theorem column_layout_amended :
    ∀ (data : ℕ → ℕ → ℝ) (i : ℕ),
      empricalPressureOver10AOA data i = data (i + 1) 1
    ∧ empricalPressureOver5AOA data i = data (i + 1) 2
    ∧ empricalPressureOver0AOA data i = data (i + 1) 3
    ∧ empricalPressureUnder0AOA data i = data (i + 1) 4
    ∧ empricalPressureUnder5AOA data i = data (i + 1) 5
    ∧ empricalPressureUnder10AOA data i = data (i + 1) 6 :=
  fun _ _ => ⟨rfl, rfl, rfl, rfl, rfl, rfl⟩

/-- C8: the usage branch is guarded by `argc < 1`, which is false for
every actual process invocation (`argc ≥ 1`), in particular for a run
with no table-path argument (`argc = 1`): the message is never printed
and the missing argument is never caught. -/
theorem usage_branch_never_taken :
    ∀ argc : ℕ, 1 ≤ argc → usageBranchTaken argc = false := by
  intro argc h
  simp only [usageBranchTaken, decide_eq_false_iff_not]
  omega

/-- Witness for `usage_branch_never_taken`: a run with the program name
only. -/
theorem usage_branch_never_taken_witness : usageBranchTaken 1 = false :=
  usage_branch_never_taken 1 (by norm_num)

/-- C9: the over-airfoil table's element 20 is the merged literal
`-1.4999 - 1.4769 = -2.9768`, leaving 83 elements against the under
table's 84, so the two curves have unequal lengths. -/
theorem cp_table_missing_comma :
    cpOverTable.getD 20 0 = -1.4999 - 1.4769
  ∧ (-1.4999 - 1.4769 : ℚ) = -2.9768
  ∧ cpOverTable.length = 83
  ∧ cpUnderTable.length = 84
  ∧ cpOverTable.length ≠ cpUnderTable.length := by
  refine ⟨?_, by norm_num, cpOverTable_length, cpUnderTable_length, ?_⟩
  · simp [cpOverTable, List.getD_cons_succ, List.getD_cons_zero]
  · rw [cpOverTable_length, cpUnderTable_length]
    norm_num

/-- C10 (counterexample): with the accumulator starting at 1, the
returned under-surface velocity is NOT "the specification's average plus
the initial contents divided by the element count", on either reading of
that average (83 summed terms / 83 or all 84 positions / 84). -/
theorem accumulator_init_cx :
    v1_v1 1 ≠ (∑ i ∈ Finset.range 83, velTerm 30 ((cpUnderTable.getD i 0 : ℚ) : ℝ)) / 83 + 1 / 84
  ∧ v1_v1 1 ≠ (∑ i ∈ Finset.range 84, velTerm 30 ((cpUnderTable.getD i 0 : ℚ) : ℝ)) / 84 + 1 / 84 := by
  constructor
  · rw [v1_v1_eq]
    intro h
    have hS := sum_under_pos
    linarith
  · rw [v1_v1_eq, sum_under_84_split]
    intro h
    have ht := velTerm_under_84_pos
    linarith

/-- C10 (amended): each `+=` accumulator returns its zero-start value
plus the initial contents divided by that variant's divisor (84 and 83 in
v1, 278 in v3), and the returned value equals the zero-start value
exactly when the uninitialized local happened to start at zero. -/
theorem accumulator_carries_initial :
    (∀ init : ℝ, v1_v1 init = v1_v1 0 + init / 84 ∧ (v1_v1 init = v1_v1 0 ↔ init = 0))
  ∧ (∀ init : ℝ, v1_v2 init = v1_v2 0 + init / 83)
  ∧ (∀ (c : ℕ → ℝ) (init : ℝ), v3_v1 c init = v3_v1 c 0 + init / 278)
  ∧ (∀ (c : ℕ → ℝ) (init : ℝ), v3_v2 c init = v3_v2 c 0 + init / 278) := by
  refine ⟨fun init => ⟨?_, ?_, ?_⟩, fun init => ?_, fun c init => ?_, fun c init => ?_⟩
  · rw [v1_v1_eq, v1_v1_eq]; ring
  · intro h
    rw [v1_v1_eq, v1_v1_eq] at h
    field_simp at h
    linarith
  · intro h
    rw [h]
  · rw [v1_v2_eq, v1_v2_eq]; ring
  · rw [v3_v1_eq, v3_v1_eq]; ring
  · rw [v3_v2_eq, v3_v2_eq]; ring

end LiftAirfoil
